import Mathlib

/-!
Verification of the Elroy chat front-end
(src/src/components/SmartElroyAssistant.tsx).

This file gives a shallow embedding of the component state and of its four
state-changing operations (appendFiles, removePendingFile, clearChat,
sendMessage), translated from the TypeScript source, and proves the claims
of the specification against it.

Modelling choices:
* The React useState state is gathered in one record `AppState`; each
  functional state update is applied in program order.  `sendMessage` reads
  `messages`, `input`, `pendingFiles` and the settings once at entry (the
  closure snapshot) — in particular the history sent over the wire is built
  from the PRE-send `messages` list, not from the list that already holds
  the freshly appended placeholder.
* The nondeterministic parts of one `sendMessage` run — the two pairs of
  uid() / Date.now() draws and the outcome of the single fetch — are
  supplied as an explicit environment `SendEnv`.
* A FileReader read of a pending file either yields the file contents (for
  images and PDFs the data-URL form, for text files the decoded text) or
  rejects; the source always rejects with the message "File read error", so
  a file is modelled with a single `read : Option String` field, `none`
  standing for a rejected read.
* The parsed JSON body of a 2xx response is modelled structurally, with an
  `Option` at every point where the optional chain
  data?.choices?.[0]?.message?.content of the source tolerates absence.
* `sendMessage` returns the successor state together with an
  `Option (List ORMessage)`: `some h` is the body of the single HTTP
  request issued (no retry exists in the source), `none` means no request
  went out (the empty-input guard, or a file read that rejected before the
  fetch was reached).
* The JS string builtins used by the component are modelled by the
  executable functions `jsTrim` (String.prototype.trim), `jsStartsWith`
  (String.prototype.startsWith) and `jsSlice0` (text.slice(0, n), counted
  in characters), all defined over the character list so that they
  evaluate by kernel reduction.
-/

/-- Chat roles stored in the transcript (type Role of the source). -/
inductive Role where
  | user
  | assistant
deriving DecidableEq, Repr

/-- One transcript entry (type ChatMessage of the source). -/
structure ChatMessage where
  id : String
  role : Role
  text : String
  ts : Nat
deriving DecidableEq, Repr

/-- A user-selected file awaiting send.  `fileType` is the declared media
type (File.type); `read` is the result the FileReader would deliver for
this file (`none` = the read rejects with "File read error"). -/
structure PendingFile where
  name : String
  fileType : String
  read : Option String
deriving DecidableEq, Repr

/-- Tone setting (neutral, friendly or formal). -/
inductive Tone where
  | neutral
  | friendly
  | formal
deriving DecidableEq, Repr

/-- Depth setting (concise, balanced or detailed). -/
inductive Depth where
  | concise
  | balanced
  | detailed
deriving DecidableEq, Repr

/-- Citation-mode setting (auto, always or never). -/
inductive CitationMode where
  | auto
  | always
  | never
deriving DecidableEq, Repr

/-- The user-configurable behavior settings, one field per useState hook of
the component (systemPrompt, tone, depth, citationMode, extractTables,
describeImages).  The spec calls the last field systemPromptText. -/
structure BehaviorSettings where
  tone : Tone
  depth : Depth
  citationMode : CitationMode
  extractTables : Bool
  describeImages : Bool
  systemPrompt : String
deriving DecidableEq, Repr

/-- The mutable component state. -/
structure AppState where
  messages : List ChatMessage
  input : String
  pendingFiles : List PendingFile
  isSending : Bool
  settings : BehaviorSettings
deriving DecidableEq, Repr

/-- Roles of outbound payload blocks (OpenRouterMessage.role). -/
inductive ORRole where
  | system
  | user
  | assistant
deriving DecidableEq, Repr

/-- One typed content block of an outbound turn
(type OpenRouterContentBlock of the source). -/
inductive ContentBlock where
  | text (text : String)
  | image_url (url : String)
  | file (filename : String) (file_data : String)
deriving DecidableEq, Repr

/-- One role-tagged outbound turn (type OpenRouterMessage of the source). -/
structure ORMessage where
  role : ORRole
  content : List ContentBlock
deriving DecidableEq, Repr

/-- The message object of a parsed response choice; `content` is optional
because the source reads it through an optional chain. -/
structure RespMessage where
  content : Option String
deriving DecidableEq, Repr

/-- One parsed response choice. -/
structure RespChoice where
  message : Option RespMessage
deriving DecidableEq, Repr

/-- Outcome of the single fetch of one send: `success` = HTTP 2xx whose
body parsed, carrying the (possibly absent) choices array; `httpError` =
non-2xx status together with the body text the source splices into the
Error it throws; `thrown` = any other rejection (network error, the 120 s
abort, a body-parse error), carrying the message of that error. -/
inductive FetchOutcome where
  | success (choices : Option (List RespChoice))
  | httpError (status : Nat) (bodyText : String)
  | thrown (msg : String)
deriving DecidableEq, Repr

/-- Per-send environment: the two uid() / Date.now() draws and the fetch
outcome. -/
structure SendEnv where
  uid1 : String
  ts1 : Nat
  uid2 : String
  ts2 : Nat
  fetch : FetchOutcome
deriving DecidableEq, Repr

/-- Model of JS String.prototype.startsWith: character-prefix test. -/
def jsStartsWith (s pre : String) : Bool :=
  List.isPrefixOf pre.data s.data

/-- Model of JS text.slice(0, n): the first n characters of the text. -/
def jsSlice0 (s : String) (n : Nat) : String :=
  String.mk (s.data.take n)

/-- Model of JS String.prototype.trim (the input.trim() call on source
line 178): drop whitespace characters from both ends. -/
def jsTrim (s : String) : String :=
  String.mk
    ((((s.data.dropWhile Char.isWhitespace).reverse).dropWhile
        Char.isWhitespace).reverse)

/-- Media-type test of appendFiles (source lines 133-137): a file is kept
iff its declared type is application/pdf, text/plain, or starts with
image/. -/
def supportedFile (f : PendingFile) : Bool :=
  f.fileType == "application/pdf" || f.fileType == "text/plain"
    || jsStartsWith f.fileType "image/"

/-- appendFiles (source lines 132-140): filter the incoming files by media
type and append the survivors to the pending list. -/
def appendFiles (pending : List PendingFile) (files : List PendingFile) :
    List PendingFile :=
  pending ++ files.filter supportedFile

/-- removePendingFile (source lines 147-149): keep the pending files whose
name differs from the given one. -/
def removePendingFile (pending : List PendingFile) (name : String) :
    List PendingFile :=
  pending.filter (fun f => f.name != name)

/-- clearChat (source line 322): empty the message list; nothing else
changes. -/
def clearChat (st : AppState) : AppState :=
  { st with messages := [] }

/-- String form of a Tone value (the TS union member itself). -/
def toneText : Tone → String
  | Tone.neutral => "neutral"
  | Tone.friendly => "friendly"
  | Tone.formal => "formal"

/-- String form of a Depth value. -/
def depthText : Depth → String
  | Depth.concise => "concise"
  | Depth.balanced => "balanced"
  | Depth.detailed => "detailed"

/-- String form of a CitationMode value. -/
def citationText : CitationMode → String
  | CitationMode.auto => "auto"
  | CitationMode.always => "always"
  | CitationMode.never => "never"

/-- controlDirectives (source lines 196-202): the settings-derived
directive string, five entries joined with " | ". -/
def controlDirectives (s : BehaviorSettings) : String :=
  "Tone: " ++ toneText s.tone
    ++ " | Depth: " ++ depthText s.depth
    ++ " | Citations: " ++ citationText s.citationMode
    ++ " | ExtractTables: " ++ (if s.extractTables then "true" else "false")
    ++ " | DescribeImages: " ++ (if s.describeImages then "true" else "false")

/-- First user block text when the trimmed input is non-empty (source
lines 205-214). -/
def introWithInput (trimmed cd : String) : String :=
  "User request:\n" ++ trimmed ++ "\n\n"
    ++ "Assistant controls: " ++ cd ++ "\n"
    ++ "Instructions:\n"
    ++ "- If attachments contain tables, extract as Markdown tables and summarize insights.\n"
    ++ "- If images/screenshots are attached, perform OCR-style reading and reconstruct tables when possible.\n"
    ++ "- Ensure originality; avoid AI-sounding phrasing; cite sources if derived from attachments.\n"

/-- First user block text when the trimmed input is empty but attachments
are pending (source lines 216-222). -/
def introNoInput (cd : String) : String :=
  "User sent attachments without a message.\n"
    ++ "Assistant controls: " ++ cd ++ "\n"
    ++ "Please extract, summarize, and provide structured insights. If tables are present, render them as Markdown tables.\n"

/-- Text of the first content block of the current turn: the directive-
annotated user request when the trimmed input is non-empty, otherwise the
attachments-without-message directive (source lines 204-223). -/
def currentIntro (st : AppState) : String :=
  if 0 < (jsTrim st.input).length then
    introWithInput (jsTrim st.input) (controlDirectives st.settings)
  else introNoInput (controlDirectives st.settings)

/-- Content blocks one pending file contributes to the current turn (the
body of the for-loop over pendingFiles, source lines 225-257).  An `error`
is the rejection of the FileReader read of that file, which aborts the
whole send into the catch path. -/
def fileToBlocks (f : PendingFile) : Except String (List ContentBlock) :=
  if jsStartsWith f.fileType "image/" then
    match f.read with
    | none => Except.error "File read error"
    | some dataUrl =>
        Except.ok [ContentBlock.image_url dataUrl,
          ContentBlock.text ("Attachment: Image \"" ++ f.name
            ++ "\". If text or tables exist, extract them.")]
  else if f.fileType == "application/pdf" then
    match f.read with
    | none => Except.error "File read error"
    | some dataUrl =>
        Except.ok [ContentBlock.file f.name dataUrl,
          ContentBlock.text ("Attachment: PDF \"" ++ f.name
            ++ "\". Read all pages. Extract tables and key sections.")]
  else if f.fileType == "text/plain" then
    match f.read with
    | none => Except.error "File read error"
    | some text =>
        Except.ok [ContentBlock.text
          ("Attachment: Text file \"" ++ f.name ++ "\". Content below:\n"
            ++ "----- BEGIN " ++ f.name ++ " -----\n"
            ++ jsSlice0 text 200000
            ++ "\n----- END " ++ f.name ++ " -----")]
  else
    Except.ok []

/-- The attachment loop over the whole pending list, in order; the first
rejected read aborts the send (the awaited promise throws). -/
def attachmentBlocks : List PendingFile → Except String (List ContentBlock)
  | [] => Except.ok []
  | f :: rest =>
      match fileToBlocks f with
      | Except.error e => Except.error e
      | Except.ok b =>
          match attachmentBlocks rest with
          | Except.error e => Except.error e
          | Except.ok bs => Except.ok (b ++ bs)

/-- Number of prior turns forwarded with each send
(messages.slice(-12)). -/
def historyLimit : Nat := 12

/-- JS arr.slice(-n): the last n elements (all of them when fewer). -/
def lastN (n : Nat) (l : List α) : List α :=
  l.drop (l.length - n)

/-- Outbound role of a transcript role (the role field is forwarded
unchanged on source line 267). -/
def roleToOR : Role → ORRole
  | Role.user => ORRole.user
  | Role.assistant => ORRole.assistant

/-- The outbound messages array (source lines 259-274): one system turn
carrying the system prompt, then the last 12 prior transcript entries each
as a single text block with its original role, then the current user
turn. -/
def buildHistory (sysPrompt : String) (msgs : List ChatMessage)
    (userBlocks : List ContentBlock) : List ORMessage :=
  ORMessage.mk ORRole.system [ContentBlock.text sysPrompt]
    :: ((lastN historyLimit msgs).map (fun m =>
          ORMessage.mk (roleToOR m.role) [ContentBlock.text m.text])
        ++ [ORMessage.mk ORRole.user userBlocks])

/-- Fixed lead-in of every failure message (source lines 310-311). -/
def failureNotice : String :=
  "I ran into an issue reaching the assistant service. Please try again. Details: "

/-- The optional chain data?.choices?.[0]?.message?.content with the
fallback "(no response)" (source line 298). -/
def extractContent (choices : Option (List RespChoice)) : String :=
  ((((choices.bind List.head?).bind RespChoice.message).bind
      RespMessage.content).getD "(no response)")

/-- The placeholder transcript entry appended as soon as the guard passes
(source lines 183-189): the trimmed input when non-empty, else the literal
"(sent attachments)". -/
def placeholderMessage (st : AppState) (env : SendEnv) : ChatMessage :=
  ChatMessage.mk env.uid1 Role.user
    (if 0 < (jsTrim st.input).length then jsTrim st.input else "(sent attachments)")
    env.ts1

/-- The transcript entry appended after the fetch resolved (source lines
293-315): on 2xx the extracted reply content as an assistant message; on a
non-2xx status the failure notice plus the message of the thrown Error
("API error: " ++ status ++ " " ++ body, line 295); on any other rejection
the failure notice plus the message of that error. -/
def replyMessage (env : SendEnv) : ChatMessage :=
  match env.fetch with
  | FetchOutcome.success choices =>
      ChatMessage.mk env.uid2 Role.assistant (extractContent choices) env.ts2
  | FetchOutcome.httpError status bodyText =>
      ChatMessage.mk env.uid2 Role.assistant
        (failureNotice ++ ("API error: " ++ toString status ++ " " ++ bodyText))
        env.ts2
  | FetchOutcome.thrown m =>
      ChatMessage.mk env.uid2 Role.assistant (failureNotice ++ m) env.ts2

/-- sendMessage (source lines 177-320) as a state transformer.  Returns the
successor state and, when the single fetch was reached, the request body it
was given.  Stages, in source order: the emptiness guard; the immediate
placeholder append plus clearing of the input and raising of the sending
flag; the current-turn block assembly, whose file reads may reject and send
control to the catch block before any request goes out; the history
assembly from the pre-send message snapshot; the fetch and the appending of
either the parsed reply or the failure message; and the finally block that
resets the sending flag and clears the pending list. -/
def sendMessage (st : AppState) (env : SendEnv) :
    AppState × Option (List ORMessage) :=
  if !(decide (0 < (jsTrim st.input).length))
      && !(decide (0 < st.pendingFiles.length)) then (st, none)
  else
    match attachmentBlocks st.pendingFiles with
    | Except.error msg =>
        ({ st with
            messages := st.messages
              ++ [placeholderMessage st env,
                  ChatMessage.mk env.uid2 Role.assistant
                    (failureNotice ++ msg) env.ts2],
            input := "", pendingFiles := [], isSending := false },
         none)
    | Except.ok fblocks =>
        ({ st with
            messages := st.messages ++ [placeholderMessage st env, replyMessage env],
            input := "", pendingFiles := [], isSending := false },
         some (buildHistory st.settings.systemPrompt st.messages
           (ContentBlock.text (currentIntro st) :: fblocks)))

/-- The description string of the error a given send run fails with,
`none` when the run succeeds: the rejection of the first failing file read
wins (it throws before the fetch); otherwise a non-2xx status yields the
message of the Error thrown on source line 295, and any other rejection its
own message. -/
def sendFailureDescr (st : AppState) (env : SendEnv) : Option String :=
  match attachmentBlocks st.pendingFiles with
  | Except.error m => some m
  | Except.ok _ =>
      match env.fetch with
      | FetchOutcome.success _ => none
      | FetchOutcome.httpError status bodyText =>
          some ("API error: " ++ toString status ++ " " ++ bodyText)
      | FetchOutcome.thrown m => some m

/-! ### Concrete fixtures for witnesses and counterexamples -/

/-- Settings fixture used by the concrete witnesses: defaults of the
component except for a short system prompt. -/
def settingsW : BehaviorSettings :=
  BehaviorSettings.mk Tone.neutral Depth.balanced CitationMode.auto true true "SP"

/-- State with the input "hi" and no pending files. -/
def stInputW : AppState := AppState.mk [] "hi" [] false settingsW

/-- The same state with a friendly tone. -/
def stToneW : AppState :=
  AppState.mk [] "hi" [] false
    (BehaviorSettings.mk Tone.friendly Depth.balanced CitationMode.auto true true "SP")

/-- Whitespace-only input and no files. -/
def stEmptyW : AppState := AppState.mk [] "  " [] false settingsW

/-- Empty input with one pending text file. -/
def stFilesW : AppState :=
  AppState.mk [] "" [PendingFile.mk "a.txt" "text/plain" (some "hi")] false settingsW

/-- A well-formed choices array whose first message content is "42". -/
def choicesW : Option (List RespChoice) :=
  some [RespChoice.mk (some (RespMessage.mk (some "42")))]

/-- Environment whose fetch is a well-formed 2xx reply saying "42". -/
def envOkW : SendEnv :=
  SendEnv.mk "u1" 1 "u2" 2 (FetchOutcome.success choicesW)

/-- Environment whose fetch is an HTTP 500 with body "boom". -/
def envErrW : SendEnv :=
  SendEnv.mk "u1" 1 "u2" 2 (FetchOutcome.httpError 500 "boom")

/-- Request body issued at the concrete witness state. -/
def histInputW : List ORMessage := ((sendMessage stInputW envOkW).2).getD []


/-! ### Helper lemmas -/

/-- Passing the emptiness guard makes the guard condition false. -/
theorem guardCond_eq_false (st : AppState)
    (hg : 0 < (jsTrim st.input).length ∨ 0 < st.pendingFiles.length) :
    (!(decide (0 < (jsTrim st.input).length))
      && !(decide (0 < st.pendingFiles.length))) = false := by
  rcases hg with h | h <;> simp [h]

/-- Closed form of a send whose first failing file read rejected. -/
theorem sendMessage_eq_of_readError (st : AppState) (env : SendEnv) (m : String)
    (hg : 0 < (jsTrim st.input).length ∨ 0 < st.pendingFiles.length)
    (hab : attachmentBlocks st.pendingFiles = Except.error m) :
    sendMessage st env =
      ({ st with
          messages := st.messages
            ++ [placeholderMessage st env,
                ChatMessage.mk env.uid2 Role.assistant
                  (failureNotice ++ m) env.ts2],
          input := "", pendingFiles := [], isSending := false },
       none) := by
  unfold sendMessage
  rw [guardCond_eq_false st hg]
  simp only [Bool.false_eq_true, if_false, hab]

/-- Closed form of a send all of whose file reads resolved: the single
fetch is issued with the assembled history and the reply entry is
appended. -/
theorem sendMessage_eq_of_blocksOk (st : AppState) (env : SendEnv)
    (bs : List ContentBlock)
    (hg : 0 < (jsTrim st.input).length ∨ 0 < st.pendingFiles.length)
    (hab : attachmentBlocks st.pendingFiles = Except.ok bs) :
    sendMessage st env =
      ({ st with
          messages := st.messages ++ [placeholderMessage st env, replyMessage env],
          input := "", pendingFiles := [], isSending := false },
       some (buildHistory st.settings.systemPrompt st.messages
         (ContentBlock.text (currentIntro st) :: bs))) := by
  unfold sendMessage
  rw [guardCond_eq_false st hg]
  simp only [Bool.false_eq_true, if_false, hab]

/-- A send request is only issued from the all-reads-resolved branch, and
its body is the assembled history. -/
theorem sendMessage_request_inv (st : AppState) (env : SendEnv)
    (hist : List ORMessage) (h : (sendMessage st env).2 = some hist) :
    ∃ bs, attachmentBlocks st.pendingFiles = Except.ok bs ∧
      hist = buildHistory st.settings.systemPrompt st.messages
        (ContentBlock.text (currentIntro st) :: bs) := by
  unfold sendMessage at h
  split at h
  · simp at h
  · rcases hab : attachmentBlocks st.pendingFiles with m | bs <;> rw [hab] at h <;>
      simp at h
    exact ⟨bs, rfl, h.symm⟩

/-- The last-12 window never exceeds 12 entries. -/
theorem lastN_length_le (n : Nat) (l : List α) : (lastN n l).length ≤ n := by
  simp only [lastN, List.length_drop]
  omega

/-! ### Claim theorems -/

/-- Claim C5: after every send attempt that passes the emptiness guard,
whether it succeeds or fails, the pending-attachment list is empty and the
is-sending flag is false. -/
theorem send_clears_pending_spec (st : AppState) (env : SendEnv)
    (hg : 0 < (jsTrim st.input).length ∨ 0 < st.pendingFiles.length) :
    (sendMessage st env).1.pendingFiles = [] ∧
      (sendMessage st env).1.isSending = false := by
  rcases hab : attachmentBlocks st.pendingFiles with m | bs
  · rw [sendMessage_eq_of_readError st env m hg hab]
    exact ⟨rfl, rfl⟩
  · rw [sendMessage_eq_of_blocksOk st env bs hg hab]
    exact ⟨rfl, rfl⟩

/-- Witness for C5 at the concrete input-only state and the 2xx
environment. -/
theorem send_clears_pending_spec_witness :
    (sendMessage stInputW envOkW).1.pendingFiles = [] ∧
      (sendMessage stInputW envOkW).1.isSending = false :=
  send_clears_pending_spec stInputW envOkW (Or.inl (by decide))

/-- Claim C6: when the trimmed input is empty and no attachment is pending,
send is a no-op — the whole state is unchanged and no request is issued. -/
theorem send_noop_spec (st : AppState) (env : SendEnv)
    (h1 : (jsTrim st.input).length = 0) (h2 : st.pendingFiles = []) :
    sendMessage st env = (st, none) := by
  simp [sendMessage, h1, h2]

/-- Witness for C6 at the whitespace-only state. -/
theorem send_noop_spec_witness :
    sendMessage stEmptyW envOkW = (stEmptyW, none) :=
  send_noop_spec stEmptyW envOkW (by decide) rfl

/-- Claim C7: a file enters the pending list through appendFiles iff it was
already pending or is one of the offered files with a supported declared
media type (application/pdf, text/plain, or prefixed with image/); in
particular a file of unsupported type is silently dropped at acceptance
time. -/
theorem append_files_filter_spec (pending files : List PendingFile)
    (f : PendingFile) :
    (f ∈ appendFiles pending files ↔
      f ∈ pending ∨ (f ∈ files ∧ supportedFile f = true)) ∧
    (supportedFile f = false →
      (f ∈ appendFiles pending files ↔ f ∈ pending)) := by
  constructor
  · simp [appendFiles, List.mem_append, List.mem_filter]
  · intro hf
    simp [appendFiles, List.mem_append, List.mem_filter, hf]

/-- Claim C8: clearing the conversation empties the message sequence and
leaves every BehaviorSettings field and the pending-attachment list
unchanged. -/
theorem clear_chat_spec (st : AppState) :
    (clearChat st).messages = [] ∧
    (clearChat st).settings.tone = st.settings.tone ∧
    (clearChat st).settings.depth = st.settings.depth ∧
    (clearChat st).settings.citationMode = st.settings.citationMode ∧
    (clearChat st).settings.extractTables = st.settings.extractTables ∧
    (clearChat st).settings.describeImages = st.settings.describeImages ∧
    (clearChat st).settings.systemPrompt = st.settings.systemPrompt ∧
    (clearChat st).pendingFiles = st.pendingFiles :=
  ⟨rfl, rfl, rfl, rfl, rfl, rfl, rfl, rfl⟩

/-- Claim C9: removing a pending attachment is keyed only by filename — a
file survives iff its name differs from the removed one (so several files
sharing the name are all removed), and the survivors keep their original
order (the result is a sublist of the input). -/
theorem remove_pending_spec (pending : List PendingFile) (name : String) :
    (∀ f, f ∈ removePendingFile pending name ↔ (f ∈ pending ∧ f.name ≠ name)) ∧
    List.Sublist (removePendingFile pending name) pending := by
  constructor
  · intro f
    simp [removePendingFile, List.mem_filter]
  · exact List.filter_sublist pending

/-- Claim C2: every guard-passing send that fails — a rejected file read, a
non-2xx status, a network error, the 120 s abort, or a response-parse
error — appends exactly one assistant-role entry (after the user
placeholder), whose text is the fixed failure notice followed by the
description of the underlying error.  The model issues at most one request
per send, so no retry occurs. -/
theorem send_failure_spec (st : AppState) (env : SendEnv) (d : String)
    (hg : 0 < (jsTrim st.input).length ∨ 0 < st.pendingFiles.length)
    (hf : sendFailureDescr st env = some d) :
    (sendMessage st env).1.messages
        = st.messages
          ++ [placeholderMessage st env,
              ChatMessage.mk env.uid2 Role.assistant (failureNotice ++ d) env.ts2]
      ∧ (placeholderMessage st env).role = Role.user := by
  rcases hab : attachmentBlocks st.pendingFiles with m | bs
  · rw [sendMessage_eq_of_readError st env m hg hab]
    simp only [sendFailureDescr, hab, Option.some.injEq] at hf
    rw [hf]
    exact ⟨rfl, rfl⟩
  · rw [sendMessage_eq_of_blocksOk st env bs hg hab]
    rcases hfe : env.fetch with ch | ⟨status, body⟩ | msg
    · simp [sendFailureDescr, hab, hfe] at hf
    · simp only [sendFailureDescr, hab, hfe, Option.some.injEq] at hf
      exact ⟨by simp [replyMessage, hfe, hf], rfl⟩
    · simp only [sendFailureDescr, hab, hfe, Option.some.injEq] at hf
      exact ⟨by simp [replyMessage, hfe, hf], rfl⟩

/-- Witness for C2: the input-only state with an HTTP 500 reply whose body
is "boom". -/
theorem send_failure_spec_witness :
    (sendMessage stInputW envErrW).1.messages
        = stInputW.messages
          ++ [placeholderMessage stInputW envErrW,
              ChatMessage.mk envErrW.uid2 Role.assistant
                (failureNotice ++ "API error: 500 boom") envErrW.ts2]
      ∧ (placeholderMessage stInputW envErrW).role = Role.user :=
  send_failure_spec stInputW envErrW "API error: 500 boom"
    (Or.inl (by decide)) rfl

/-- Claim C3: a send whose fetch came back 2xx with a parsed body appends
the user placeholder and exactly one assistant entry whose text is the
content of the first choice message; when any link of the optional chain
(choices array, first element, message, content) is absent, that text is
the literal "(no response)" rather than an error message. -/
theorem send_success_spec (st : AppState) (env : SendEnv)
    (choices : Option (List RespChoice)) (bs : List ContentBlock)
    (hg : 0 < (jsTrim st.input).length ∨ 0 < st.pendingFiles.length)
    (hab : attachmentBlocks st.pendingFiles = Except.ok bs)
    (hfetch : env.fetch = FetchOutcome.success choices) :
    (sendMessage st env).1.messages
        = st.messages
          ++ [placeholderMessage st env,
              ChatMessage.mk env.uid2 Role.assistant
                (extractContent choices) env.ts2]
      ∧ (∀ s, (((choices.bind List.head?).bind RespChoice.message).bind
            RespMessage.content) = some s → extractContent choices = s)
      ∧ ((((choices.bind List.head?).bind RespChoice.message).bind
            RespMessage.content) = none →
          extractContent choices = "(no response)") := by
  refine ⟨?_, ?_, ?_⟩
  · rw [sendMessage_eq_of_blocksOk st env bs hg hab]
    simp [replyMessage, hfetch]
  · intro s hs
    simp [extractContent, hs]
  · intro hn
    simp [extractContent, hn]

/-- Witness for C3: the input-only state with the 2xx environment whose
first choice content is "42". -/
theorem send_success_spec_witness :
    (sendMessage stInputW envOkW).1.messages
        = stInputW.messages
          ++ [placeholderMessage stInputW envOkW,
              ChatMessage.mk envOkW.uid2 Role.assistant
                (extractContent choicesW) envOkW.ts2]
      ∧ (∀ s, (((choicesW.bind List.head?).bind RespChoice.message).bind
            RespMessage.content) = some s → extractContent choicesW = s)
      ∧ ((((choicesW.bind List.head?).bind RespChoice.message).bind
            RespMessage.content) = none →
          extractContent choicesW = "(no response)") :=
  send_success_spec stInputW envOkW choicesW []
    (Or.inl (by decide)) rfl rfl

/-- Claim C4: a text/plain attachment whose read resolved contributes one
text block wrapping the decoded text in BEGIN/END marker lines that both
name the file; the text is cut to its first 200000 characters — length
exactly 200000 whenever the text is longer — and is included verbatim when
it has at most 200000 characters. -/
theorem text_attachment_spec (f : PendingFile) (t : String)
    (h1 : f.fileType = "text/plain") (h2 : f.read = some t) :
    fileToBlocks f = Except.ok [ContentBlock.text
        ("Attachment: Text file \"" ++ f.name ++ "\". Content below:\n"
          ++ "----- BEGIN " ++ f.name ++ " -----\n"
          ++ jsSlice0 t 200000
          ++ "\n----- END " ++ f.name ++ " -----")]
      ∧ (t.length ≤ 200000 → jsSlice0 t 200000 = t)
      ∧ (jsSlice0 t 200000).length = min 200000 t.length := by
  refine ⟨?_, ?_, ?_⟩
  · obtain ⟨nm, ft, rd⟩ := f
    simp only at h1 h2
    subst h1
    subst h2
    have e1 : jsStartsWith "text/plain" "image/" = false := rfl
    have e2 : (("text/plain" : String) == "application/pdf") = false := rfl
    have e3 : (("text/plain" : String) == "text/plain") = true := rfl
    simp [fileToBlocks, e1, e2, e3]
  · intro h
    unfold jsSlice0
    rw [List.take_of_length_le h]
  · unfold jsSlice0
    show (t.data.take 200000).length = min 200000 t.data.length
    exact List.length_take 200000 t.data

/-- Witness for C4 at a concrete five-character text file. -/
theorem text_attachment_spec_witness :
    fileToBlocks (PendingFile.mk "a.txt" "text/plain" (some "hello"))
        = Except.ok [ContentBlock.text
          ("Attachment: Text file \"" ++ "a.txt" ++ "\". Content below:\n"
            ++ "----- BEGIN " ++ "a.txt" ++ " -----\n"
            ++ jsSlice0 "hello" 200000
            ++ "\n----- END " ++ "a.txt" ++ " -----")]
      ∧ (("hello" : String).length ≤ 200000 → jsSlice0 "hello" 200000 = "hello")
      ∧ (jsSlice0 "hello" 200000).length = min 200000 ("hello" : String).length :=
  text_attachment_spec (PendingFile.mk "a.txt" "text/plain" (some "hello"))
    "hello" rfl rfl

/-- Claim C10: the placeholder appended at the start of every guard-passing
send carries the whitespace-trimmed input when that is non-empty, and the
literal "(sent attachments)" when the trimmed input is empty but
attachments are pending; in the latter case the current turn of any issued
request opens with the attachments-without-message directive text. -/
theorem placeholder_spec (st : AppState) (env : SendEnv)
    (hg : 0 < (jsTrim st.input).length ∨ 0 < st.pendingFiles.length) :
    ∃ a, (sendMessage st env).1.messages
          = st.messages ++ [placeholderMessage st env, a]
      ∧ (placeholderMessage st env).role = Role.user
      ∧ (0 < (jsTrim st.input).length →
          (placeholderMessage st env).text = jsTrim st.input)
      ∧ ((jsTrim st.input).length = 0 →
          (placeholderMessage st env).text = "(sent attachments)"
          ∧ ∀ hist, (sendMessage st env).2 = some hist →
              ∃ rest, hist.getLast? = some (ORMessage.mk ORRole.user
                (ContentBlock.text
                    (introNoInput (controlDirectives st.settings))
                  :: rest))) := by
  have htext1 : 0 < (jsTrim st.input).length →
      (placeholderMessage st env).text = jsTrim st.input := by
    intro h
    simp [placeholderMessage, h]
  have htext0 : (jsTrim st.input).length = 0 →
      (placeholderMessage st env).text = "(sent attachments)" := by
    intro h
    have hn : ¬ 0 < (jsTrim st.input).length := by omega
    simp [placeholderMessage, hn]
  rcases hab : attachmentBlocks st.pendingFiles with m | bs
  · refine ⟨ChatMessage.mk env.uid2 Role.assistant (failureNotice ++ m) env.ts2,
      ?_, rfl, htext1, ?_⟩
    · rw [sendMessage_eq_of_readError st env m hg hab]
    · intro h0
      refine ⟨htext0 h0, ?_⟩
      intro hist hh
      rw [sendMessage_eq_of_readError st env m hg hab] at hh
      simp at hh
  · refine ⟨replyMessage env, ?_, rfl, htext1, ?_⟩
    · rw [sendMessage_eq_of_blocksOk st env bs hg hab]
    · intro h0
      refine ⟨htext0 h0, ?_⟩
      intro hist hh
      rw [sendMessage_eq_of_blocksOk st env bs hg hab] at hh
      simp only [Option.some.injEq] at hh
      refine ⟨bs, ?_⟩
      have hn : ¬ 0 < (jsTrim st.input).length := by omega
      have hcur : currentIntro st
          = introNoInput (controlDirectives st.settings) := by
        simp [currentIntro, hn]
      rw [← hh, buildHistory, hcur, ← List.cons_append, List.getLast?_concat]

/-- Witness for C10 at the attachments-only state (empty input, one text
file) with the 2xx environment. -/
theorem placeholder_spec_witness :
    ∃ a, (sendMessage stFilesW envOkW).1.messages
          = stFilesW.messages ++ [placeholderMessage stFilesW envOkW, a]
      ∧ (placeholderMessage stFilesW envOkW).role = Role.user
      ∧ (0 < (jsTrim stFilesW.input).length →
          (placeholderMessage stFilesW envOkW).text = jsTrim stFilesW.input)
      ∧ ((jsTrim stFilesW.input).length = 0 →
          (placeholderMessage stFilesW envOkW).text = "(sent attachments)"
          ∧ ∀ hist, (sendMessage stFilesW envOkW).2 = some hist →
              ∃ rest, hist.getLast? = some (ORMessage.mk ORRole.user
                (ContentBlock.text
                    (introNoInput (controlDirectives stFilesW.settings))
                  :: rest))) :=
  placeholder_spec stFilesW envOkW (Or.inr (by decide))

/-- Claim C1 (amended): the body of every issued request is exactly one
system-role block whose single text block is the configurable system
prompt text, followed by at most the last 12 prior turns — each forwarded
as one text block under its original role — followed by exactly one
user-role block for the current turn, and nothing else.  Amendment forced
by the counterexample below: the BehaviorSettings-derived control
directives are carried by the first text block of the current turn (the
currentIntro text), not by the system block, which holds the configurable
system prompt text alone. -/
theorem payload_shape_spec (st : AppState) (env : SendEnv)
    (hist : List ORMessage) (h : (sendMessage st env).2 = some hist) :
    ∃ fblocks,
      hist = ORMessage.mk ORRole.system
              [ContentBlock.text st.settings.systemPrompt]
            :: ((lastN historyLimit st.messages).map (fun m =>
                  ORMessage.mk (roleToOR m.role) [ContentBlock.text m.text])
                ++ [ORMessage.mk ORRole.user
                      (ContentBlock.text (currentIntro st) :: fblocks)])
      ∧ (lastN historyLimit st.messages).length ≤ historyLimit
      ∧ hist.length ≤ historyLimit + 2 := by
  obtain ⟨bs, hab, hhist⟩ := sendMessage_request_inv st env hist h
  refine ⟨bs, ?_, lastN_length_le _ _, ?_⟩
  · rw [hhist, buildHistory]
  · rw [hhist, buildHistory]
    simp only [List.length_cons, List.length_append, List.length_map]
    have := lastN_length_le historyLimit st.messages
    simp only [List.length_cons, List.length_nil]
    omega

/-- Witness for C1 (amended) at the concrete input-only state. -/
theorem payload_shape_spec_witness :
    ∃ fblocks,
      histInputW = ORMessage.mk ORRole.system
              [ContentBlock.text stInputW.settings.systemPrompt]
            :: ((lastN historyLimit stInputW.messages).map (fun m =>
                  ORMessage.mk (roleToOR m.role) [ContentBlock.text m.text])
                ++ [ORMessage.mk ORRole.user
                      (ContentBlock.text (currentIntro stInputW) :: fblocks)])
      ∧ (lastN historyLimit stInputW.messages).length ≤ historyLimit
      ∧ histInputW.length ≤ historyLimit + 2 :=
  payload_shape_spec stInputW envOkW histInputW rfl

/-- Counterexample to claim C1 as stated: the leading system-role block of
the issued payload does not carry the BehaviorSettings-derived
instructions.  Two states that differ only in tone — and hence in their
derived directive string — issue payloads with the identical system block,
consisting of the configurable system prompt text alone; the directive
string differs from that block text. -/
theorem payload_shape_counterexample :
    (sendMessage stInputW envOkW).2.map List.head?
        = some (some (ORMessage.mk ORRole.system [ContentBlock.text "SP"]))
      ∧ (sendMessage stToneW envOkW).2.map List.head?
        = some (some (ORMessage.mk ORRole.system [ContentBlock.text "SP"]))
      ∧ stInputW.settings.tone ≠ stToneW.settings.tone
      ∧ controlDirectives stInputW.settings ≠ controlDirectives stToneW.settings
      ∧ controlDirectives stInputW.settings ≠ "SP" :=
  ⟨rfl, rfl, by decide, by decide, by decide⟩
